import Mathlib

/-!
# Verification of the Premier-League match outcome predictor

Shallow embedding of `simulationModel.py`.  Team strength coefficients and
league averages are real numbers; the scipy Poisson probability mass function
`poisson.pmf(k, mu)` is embedded as `mu ^ k * exp (-mu) / k!`; Python's
`round(x, 2)` is embedded as rounding to the nearest multiple of `1/100`.
-/

open Finset

/-- Team strength record, as produced by `calculate_final_team_stats` and as
consumed by `predict_match` (the four required keys of the stats dict). -/
structure TeamStats where
  attack_strength_home : ℝ
  defense_strength_home : ℝ
  attack_strength_away : ℝ
  defense_strength_away : ℝ

/-- League-wide scoring averages, the two fields of the dict returned by
`calculate_league_averages` that `predict_match` reads. -/
structure LeagueAverages where
  avg_home_goals : ℝ
  avg_away_goals : ℝ

/-- The all-zero sentinel record substituted when team stats are missing,
invalid or raise (lines 76-81, 86-91, 99-104, 109-114 of the source). -/
def zero_stats : TeamStats := ⟨0, 0, 0, 0⟩

/-- `get_current_season` (source lines 8-26), as a function of the current
year and month: `if current_month < 8: return current_year - 1 else
return current_year`. -/
def get_current_season (current_year : ℤ) (current_month : ℕ) : ℤ :=
  if current_month < 8 then current_year - 1 else current_year

/-- Source line 118: `lambda_home = home_team_stats['attack_strength_home'] *
away_team_stats['defense_strength_away'] * league_averages['avg_home_goals']`. -/
noncomputable def lambda_home (home_team_stats away_team_stats : TeamStats)
    (league_averages : LeagueAverages) : ℝ :=
  home_team_stats.attack_strength_home * away_team_stats.defense_strength_away *
    league_averages.avg_home_goals

/-- Source line 120: `lambda_away = away_team_stats['attack_strength_away'] *
home_team_stats['defense_strength_home'] * league_averages['avg_away_goals']`. -/
noncomputable def lambda_away (home_team_stats away_team_stats : TeamStats)
    (league_averages : LeagueAverages) : ℝ :=
  away_team_stats.attack_strength_away * home_team_stats.defense_strength_home *
    league_averages.avg_away_goals

/-- `max_goals = 7` (source line 123). -/
def max_goals : ℕ := 7

/-- The Poisson probability mass function `poisson.pmf(k, mu)` from
`scipy.stats`: `mu^k * exp(-mu) / k!`. -/
noncomputable def poisson_pmf (mu : ℝ) (k : ℕ) : ℝ :=
  mu ^ k * Real.exp (-mu) / (Nat.factorial k : ℝ)

/-- Accumulated `home_win_prob` over the goal grid (source lines 127-134):
the sum of the joint probabilities of all cells with `home_goals > away_goals`. -/
noncomputable def home_win_prob (lh la : ℝ) : ℝ :=
  ∑ h in Finset.range (max_goals + 1), ∑ a in Finset.range (max_goals + 1),
    if a < h then poisson_pmf lh h * poisson_pmf la a else 0

/-- Accumulated `away_win_prob` (source lines 135-136). -/
noncomputable def away_win_prob (lh la : ℝ) : ℝ :=
  ∑ h in Finset.range (max_goals + 1), ∑ a in Finset.range (max_goals + 1),
    if h < a then poisson_pmf lh h * poisson_pmf la a else 0

/-- Accumulated `draw_prob` (source lines 137-138). -/
noncomputable def draw_prob (lh la : ℝ) : ℝ :=
  ∑ h in Finset.range (max_goals + 1), ∑ a in Finset.range (max_goals + 1),
    if h = a then poisson_pmf lh h * poisson_pmf la a else 0

/-- `total_calculated_prob = home_win_prob + away_win_prob + draw_prob`
(source line 140). -/
noncomputable def total_calculated_prob (lh la : ℝ) : ℝ :=
  home_win_prob lh la + away_win_prob lh la + draw_prob lh la

/-- The normalized home-win probability: divided by the total when the total
is strictly positive, otherwise left as accumulated (source lines 142-145). -/
noncomputable def norm_home_win_prob (lh la : ℝ) : ℝ :=
  if 0 < total_calculated_prob lh la then
    home_win_prob lh la / total_calculated_prob lh la
  else home_win_prob lh la

/-- The normalized away-win probability (source lines 142-145). -/
noncomputable def norm_away_win_prob (lh la : ℝ) : ℝ :=
  if 0 < total_calculated_prob lh la then
    away_win_prob lh la / total_calculated_prob lh la
  else away_win_prob lh la

/-- The normalized draw probability (source lines 142-145). -/
noncomputable def norm_draw_prob (lh la : ℝ) : ℝ :=
  if 0 < total_calculated_prob lh la then
    draw_prob lh la / total_calculated_prob lh la
  else draw_prob lh la

/-- Python's `round(x, 2)`: round to the nearest hundredth. -/
noncomputable def round2 (x : ℝ) : ℝ := ((round (x * 100) : ℤ) : ℝ) / 100

/-- The returned field `home_team_win_probability` (source line 154):
`round(home_win_prob * 100, 2)`. -/
noncomputable def home_team_win_probability (lh la : ℝ) : ℝ :=
  round2 (norm_home_win_prob lh la * 100)

/-- The returned field `away_team_win_probability` (source line 155). -/
noncomputable def away_team_win_probability (lh la : ℝ) : ℝ :=
  round2 (norm_away_win_prob lh la * 100)

/-- The returned field `draw_probability` (source line 156). -/
noncomputable def draw_probability (lh la : ℝ) : ℝ :=
  round2 (norm_draw_prob lh la * 100)

/-- The scoreline label `f"{home_goals}-{away_goals}"` (source line 130). -/
def scoreline (home_goals away_goals : ℕ) : String :=
  toString home_goals ++ "-" ++ toString away_goals

/-- The `score_probabilities` dict in its insertion order (source lines
125-131): the nested loop inserts keys with ascending `home_goals`,
then ascending `away_goals`. -/
noncomputable def score_probabilities (lh la : ℝ) : List (String × ℝ) :=
  (List.range (max_goals + 1)).flatMap fun h =>
    (List.range (max_goals + 1)).map fun a =>
      (scoreline h a, poisson_pmf lh h * poisson_pmf la a)

/-- The descending-by-probability comparison used to model Python's
`sorted(..., key=lambda item: item[1], reverse=True)` (source line 147);
a stable sort under this relation is exactly a stable descending sort. -/
noncomputable def desc_by_prob (x y : String × ℝ) : Bool := decide (y.2 ≤ x.2)

/-- `sorted_scores` (source line 147): a stable sort of the score table,
descending by probability. -/
noncomputable def sorted_scores (lh la : ℝ) : List (String × ℝ) :=
  (score_probabilities lh la).mergeSort desc_by_prob

/-- `top_five_scores` (source lines 148-151): the first five sorted entries,
each probability turned into a percentage rounded to two decimals. -/
noncomputable def top_five_scores (lh la : ℝ) : List (String × ℝ) :=
  ((sorted_scores lh la).take 5).map fun e => (e.1, round2 (e.2 * 100))

/-- The total Poisson mass a single side places on `0..max_goals` goals. -/
noncomputable def goal_mass (mu : ℝ) : ℝ :=
  ∑ h in Finset.range (max_goals + 1), poisson_pmf mu h

lemma poisson_pmf_nonneg {mu : ℝ} (hmu : 0 ≤ mu) (k : ℕ) : 0 ≤ poisson_pmf mu k := by
  unfold poisson_pmf
  positivity

lemma poisson_pmf_zero_arg (mu : ℝ) : poisson_pmf mu 0 = Real.exp (-mu) := by
  simp [poisson_pmf]

lemma poisson_pmf_zero_mu (k : ℕ) : poisson_pmf 0 k = if k = 0 then 1 else 0 := by
  cases k with
  | zero => simp [poisson_pmf]
  | succ n => simp [poisson_pmf, zero_pow (Nat.succ_ne_zero n)]

lemma goal_mass_zero : goal_mass 0 = 1 := by
  simp [goal_mass, max_goals, Finset.sum_range_succ, poisson_pmf_zero_mu]

lemma goal_mass_pos {mu : ℝ} (hmu : 0 ≤ mu) : 0 < goal_mass mu := by
  have h0 : 0 < poisson_pmf mu 0 := by
    rw [poisson_pmf_zero_arg]; exact Real.exp_pos _
  have hle : poisson_pmf mu 0 ≤ goal_mass mu :=
    Finset.single_le_sum (f := fun k => poisson_pmf mu k)
      (fun i _ => poisson_pmf_nonneg hmu i) (Finset.mem_range.mpr (by norm_num))
  linarith

lemma outcome_trichotomy (x : ℝ) (h a : ℕ) :
    ((if a < h then x else 0) + (if h < a then x else 0) + (if h = a then x else 0)) = x := by
  rcases lt_trichotomy a h with hlt | heq | hgt
  · rw [if_pos hlt, if_neg (by omega), if_neg (by omega)]; ring
  · rw [if_neg (by omega), if_neg (by omega), if_pos (by omega)]; ring
  · rw [if_neg (by omega), if_pos hgt, if_neg (by omega)]; ring

/-- The total accumulated over the grid factors as a product of the two
one-sided masses. -/
lemma total_eq_mass_mul (lh la : ℝ) :
    total_calculated_prob lh la = goal_mass lh * goal_mass la := by
  unfold total_calculated_prob home_win_prob away_win_prob draw_prob goal_mass
  rw [Finset.sum_mul_sum]
  simp only [← Finset.sum_add_distrib]
  exact Finset.sum_congr rfl fun h _ => Finset.sum_congr rfl fun a _ =>
    outcome_trichotomy (poisson_pmf lh h * poisson_pmf la a) h a

lemma total_pos {lh la : ℝ} (hlh : 0 ≤ lh) (hla : 0 ≤ la) :
    0 < total_calculated_prob lh la := by
  rw [total_eq_mass_mul]
  exact mul_pos (goal_mass_pos hlh) (goal_mass_pos hla)

lemma total_zero_zero : total_calculated_prob 0 0 = 1 := by
  rw [total_eq_mass_mul, goal_mass_zero, mul_one]

lemma total_neg_input : total_calculated_prob (-10) 0 ≤ 0 := by
  rw [total_eq_mass_mul, goal_mass_zero, mul_one]
  have he : 0 < Real.exp (10 : ℝ) := Real.exp_pos _
  have : goal_mass (-10) = Real.exp 10 * (-71667 / 63) := by
    simp only [goal_mass, max_goals, Finset.sum_range_succ, Finset.sum_range_zero,
      poisson_pmf, neg_neg]
    norm_num [Nat.factorial]
    ring
  rw [this]
  nlinarith

/-- When the total is positive the three normalized outcome sums add to one. -/
lemma norm_sum_one {lh la : ℝ} (ht : 0 < total_calculated_prob lh la) :
    norm_home_win_prob lh la + norm_away_win_prob lh la + norm_draw_prob lh la = 1 := by
  unfold norm_home_win_prob norm_away_win_prob norm_draw_prob
  rw [if_pos ht, if_pos ht, if_pos ht, div_add_div_same, div_add_div_same]
  exact div_self (ne_of_gt ht)

/-- C2: when the total outcome mass is strictly positive, the three
normalization divisions make the outcome probabilities sum to exactly 1;
when it is not (in particular when it is 0), normalization is skipped and the
accumulated sums are returned unchanged — so no division by zero ever occurs
and the (total) prediction functions are defined on every numeric input. -/
theorem c2_normalization_guard (lh la : ℝ) :
    (0 < total_calculated_prob lh la →
      norm_home_win_prob lh la + norm_away_win_prob lh la + norm_draw_prob lh la = 1) ∧
    (total_calculated_prob lh la ≤ 0 →
      norm_home_win_prob lh la = home_win_prob lh la ∧
      norm_away_win_prob lh la = away_win_prob lh la ∧
      norm_draw_prob lh la = draw_prob lh la) := by
  constructor
  · exact norm_sum_one
  · intro ht
    have hn : ¬ 0 < total_calculated_prob lh la := not_lt.mpr ht
    unfold norm_home_win_prob norm_away_win_prob norm_draw_prob
    rw [if_neg hn, if_neg hn, if_neg hn]
    exact ⟨rfl, rfl, rfl⟩

/-- Witness for C2: at `lambda = (0, 0)` the total is `1 > 0` and the
normalized sums add to one; at `lambda = (-10, 0)` the total is not positive
and normalization is skipped. -/
theorem c2_normalization_guard_witness :
    (0 < total_calculated_prob 0 0 ∧
      norm_home_win_prob 0 0 + norm_away_win_prob 0 0 + norm_draw_prob 0 0 = 1) ∧
    (total_calculated_prob (-10) 0 ≤ 0 ∧
      norm_home_win_prob (-10) 0 = home_win_prob (-10) 0 ∧
      norm_away_win_prob (-10) 0 = away_win_prob (-10) 0 ∧
      norm_draw_prob (-10) 0 = draw_prob (-10) 0) := by
  have h1 : 0 < total_calculated_prob 0 0 := by rw [total_zero_zero]; norm_num
  exact ⟨⟨h1, (c2_normalization_guard 0 0).1 h1⟩,
    ⟨total_neg_input, (c2_normalization_guard (-10) 0).2 total_neg_input⟩⟩

lemma round2_abs_err (x : ℝ) : |round2 x - x| ≤ 1 / 200 := by
  unfold round2
  have h : ((round (x * 100) : ℤ) : ℝ) / 100 - x =
      (((round (x * 100) : ℤ) : ℝ) - x * 100) / 100 := by ring
  rw [h, abs_div, abs_of_pos (by norm_num : (0:ℝ) < 100)]
  have h2 := abs_sub_round (x * 100)
  rw [abs_sub_comm] at h2
  linarith

/-- C3: for a non-degenerate input (positive total) the three unrounded
normalized probabilities sum to exactly 1, and after each is multiplied by
100 and rounded to two decimals the three returned percentage fields sum to
100 within a tolerance of 0.02. -/
theorem c3_probability_conservation (lh la : ℝ)
    (ht : 0 < total_calculated_prob lh la) :
    norm_home_win_prob lh la + norm_away_win_prob lh la + norm_draw_prob lh la = 1 ∧
    |home_team_win_probability lh la + away_team_win_probability lh la +
      draw_probability lh la - 100| ≤ 0.02 := by
  have hsum := norm_sum_one ht
  refine ⟨hsum, ?_⟩
  unfold home_team_win_probability away_team_win_probability draw_probability
  have e1 := round2_abs_err (norm_home_win_prob lh la * 100)
  have e2 := round2_abs_err (norm_away_win_prob lh la * 100)
  have e3 := round2_abs_err (norm_draw_prob lh la * 100)
  rw [abs_le] at e1 e2 e3 ⊢
  constructor <;> nlinarith

/-- Witness for C3 at `lambda = (0, 0)`: the total is positive and the
conclusion holds there. -/
theorem c3_probability_conservation_witness :
    0 < total_calculated_prob 0 0 ∧
    (norm_home_win_prob 0 0 + norm_away_win_prob 0 0 + norm_draw_prob 0 0 = 1 ∧
      |home_team_win_probability 0 0 + away_team_win_probability 0 0 +
        draw_probability 0 0 - 100| ≤ 0.02) := by
  have h1 : 0 < total_calculated_prob 0 0 := by rw [total_zero_zero]; norm_num
  exact ⟨h1, c3_probability_conservation 0 0 h1⟩

lemma home_win_prob_zero_zero : home_win_prob 0 0 = 0 := by
  simp [home_win_prob, max_goals, Finset.sum_range_succ, poisson_pmf_zero_mu]

lemma away_win_prob_zero_zero : away_win_prob 0 0 = 0 := by
  simp [away_win_prob, max_goals, Finset.sum_range_succ, poisson_pmf_zero_mu]

lemma draw_prob_zero_zero : draw_prob 0 0 = 1 := by
  simp [draw_prob, max_goals, Finset.sum_range_succ, poisson_pmf_zero_mu]

lemma total_zero_zero_pos : 0 < total_calculated_prob 0 0 := by
  rw [total_zero_zero]; norm_num

lemma norm_draw_prob_zero_zero : norm_draw_prob 0 0 = 1 := by
  unfold norm_draw_prob
  rw [if_pos total_zero_zero_pos, total_zero_zero, draw_prob_zero_zero]
  norm_num

lemma norm_home_win_prob_zero_zero : norm_home_win_prob 0 0 = 0 := by
  unfold norm_home_win_prob
  rw [if_pos total_zero_zero_pos, total_zero_zero, home_win_prob_zero_zero]
  norm_num

lemma norm_away_win_prob_zero_zero : norm_away_win_prob 0 0 = 0 := by
  unfold norm_away_win_prob
  rw [if_pos total_zero_zero_pos, total_zero_zero, away_win_prob_zero_zero]
  norm_num

lemma round2_hundred : round2 (100 : ℝ) = 100 := by
  unfold round2
  have h : (100 : ℝ) * 100 = ((10000 : ℤ) : ℝ) := by norm_num
  rw [h, round_intCast]
  norm_num

lemma round2_zero : round2 (0 : ℝ) = 0 := by
  unfold round2
  norm_num

lemma draw_probability_zero_zero : draw_probability 0 0 = 100 := by
  unfold draw_probability
  rw [norm_draw_prob_zero_zero, one_mul, round2_hundred]

lemma home_team_win_probability_zero_zero : home_team_win_probability 0 0 = 0 := by
  unfold home_team_win_probability
  rw [norm_home_win_prob_zero_zero, zero_mul, round2_zero]

lemma away_team_win_probability_zero_zero : away_team_win_probability 0 0 = 0 := by
  unfold away_team_win_probability
  rw [norm_away_win_prob_zero_zero, zero_mul, round2_zero]

lemma mem_score_probabilities {lh la : ℝ} {e : String × ℝ}
    (he : e ∈ score_probabilities lh la) :
    ∃ h a, h < max_goals + 1 ∧ a < max_goals + 1 ∧
      e = (scoreline h a, poisson_pmf lh h * poisson_pmf la a) := by
  unfold score_probabilities at he
  obtain ⟨h, hh, he⟩ := List.mem_flatMap.mp he
  obtain ⟨a, ha, he⟩ := List.mem_map.mp he
  exact ⟨h, a, List.mem_range.mp hh, List.mem_range.mp ha, he.symm⟩

lemma score_entry_zero {e : String × ℝ} (he : e ∈ score_probabilities 0 0) :
    e = ("0-0", (1 : ℝ)) ∨ e.2 = 0 := by
  obtain ⟨h, a, -, -, rfl⟩ := mem_score_probabilities he
  rcases Nat.eq_zero_or_pos h with rfl | hh
  · rcases Nat.eq_zero_or_pos a with rfl | ha
    · left
      simp [scoreline, poisson_pmf_zero_mu]
      rfl
    · right
      simp [poisson_pmf_zero_mu, Nat.pos_iff_ne_zero.mp ha]
  · right
    simp [poisson_pmf_zero_mu, Nat.pos_iff_ne_zero.mp hh]

lemma zero_zero_mem_score_probabilities :
    ("0-0", (1 : ℝ)) ∈ score_probabilities 0 0 := by
  unfold score_probabilities
  refine List.mem_flatMap.mpr ⟨0, List.mem_range.mpr (by norm_num), ?_⟩
  refine List.mem_map.mpr ⟨0, List.mem_range.mpr (by norm_num), ?_⟩
  simp [poisson_pmf_zero_mu]
  rfl

lemma desc_by_prob_trans :
    ∀ a b c : String × ℝ, desc_by_prob a b → desc_by_prob b c → desc_by_prob a c := by
  intro a b c h1 h2
  simp only [desc_by_prob, decide_eq_true_eq] at h1 h2 ⊢
  exact le_trans h2 h1

lemma desc_by_prob_total :
    ∀ a b : String × ℝ, desc_by_prob a b || desc_by_prob b a := by
  intro a b
  simp only [desc_by_prob, Bool.or_eq_true, decide_eq_true_eq]
  exact le_total b.2 a.2

lemma sorted_scores_perm (lh la : ℝ) :
    List.Perm (sorted_scores lh la) (score_probabilities lh la) :=
  List.mergeSort_perm _ _

lemma sorted_scores_pairwise (lh la : ℝ) :
    (sorted_scores lh la).Pairwise (fun x y => y.2 ≤ x.2) :=
  (List.sorted_mergeSort desc_by_prob_trans desc_by_prob_total
    (score_probabilities lh la)).imp fun h => by
      simpa [desc_by_prob] using h

/-- At `lambda = (0, 0)` the stable descending sort puts the certain
scoreline `"0-0"` (probability 1) first. -/
lemma sorted_scores_zero_cons :
    ∃ t, sorted_scores 0 0 = ("0-0", (1 : ℝ)) :: t := by
  have hmem : ("0-0", (1 : ℝ)) ∈ sorted_scores 0 0 := by
    unfold sorted_scores
    exact List.mem_mergeSort.mpr zero_zero_mem_score_probabilities
  obtain ⟨x, t, hxt⟩ := List.exists_cons_of_ne_nil (List.ne_nil_of_mem hmem)
  have hx_mem : x ∈ score_probabilities 0 0 := by
    have : x ∈ sorted_scores 0 0 := by rw [hxt]; exact List.mem_cons_self x t
    exact (sorted_scores_perm 0 0).mem_iff.mp this
  have hx : x = ("0-0", (1 : ℝ)) := by
    rcases (List.mem_cons.mp (hxt ▸ hmem)) with h | h
    · exact h.symm
    · have hpw := sorted_scores_pairwise 0 0
      rw [hxt] at hpw
      have hle : (1 : ℝ) ≤ x.2 := (List.pairwise_cons.mp hpw).1 _ h
      rcases score_entry_zero hx_mem with h0 | h0
      · exact h0
      · rw [h0] at hle; linarith
  exact ⟨t, hx ▸ hxt⟩

lemma top_five_scores_zero_head :
    (top_five_scores 0 0).head? = some ("0-0", 100) := by
  obtain ⟨t, ht⟩ := sorted_scores_zero_cons
  unfold top_five_scores
  rw [ht]
  simp [round2_hundred]

/-- C6: the returned top-five list is the first five entries of the sorted
score table, where the sort is a permutation of the 64 enumerated entries,
is descending by probability, and is stable: for every probability value the
entries carrying exactly that probability appear in their enumeration
(insertion) order, i.e. ascending home goals then ascending away goals. -/
theorem c6_top_five_ordering (lh la : ℝ) :
    top_five_scores lh la =
      ((sorted_scores lh la).take 5).map (fun e => (e.1, round2 (e.2 * 100))) ∧
    (score_probabilities lh la).length = 64 ∧
    List.Perm (sorted_scores lh la) (score_probabilities lh la) ∧
    (sorted_scores lh la).Pairwise (fun x y => y.2 ≤ x.2) ∧
    ∀ v : ℝ, (sorted_scores lh la).filter (fun e => decide (e.2 = v)) =
      (score_probabilities lh la).filter (fun e => decide (e.2 = v)) := by
  refine ⟨rfl, ?_, sorted_scores_perm lh la, sorted_scores_pairwise lh la, fun v => ?_⟩
  · simp only [score_probabilities, max_goals, List.length_flatMap, List.length_map,
      List.length_range, List.map_const]
    simp [List.range_succ]
  set p : String × ℝ → Bool := fun e => decide (e.2 = v) with hp
  set c : List (String × ℝ) := (score_probabilities lh la).filter p with hc
  have hval : ∀ x ∈ c, x.2 = v := by
    intro x hx
    have := (List.mem_filter.mp hx).2
    rwa [hp, decide_eq_true_eq] at this
  have hcpair : c.Pairwise fun x y => desc_by_prob x y := by
    refine List.pairwise_of_forall_mem_list fun x hx y hy => ?_
    simp [desc_by_prob, hval x hx, hval y hy]
  have hsub : List.Sublist c ((score_probabilities lh la).mergeSort desc_by_prob) :=
    List.sublist_mergeSort desc_by_prob_trans desc_by_prob_total hcpair
      (List.filter_sublist _)
  have hc_self : c.filter p = c :=
    List.filter_eq_self.mpr fun a ha => (List.mem_filter.mp ha).2
  have hsub2 : List.Sublist c ((sorted_scores lh la).filter p) := by
    have := hsub.filter p
    rwa [hc_self] at this
  have hperm : List.Perm ((sorted_scores lh la).filter p) c :=
    (sorted_scores_perm lh la).filter p
  exact (hsub2.eq_of_length hperm.length_eq.symm).symm

/-- C7: with both strength records equal to the all-zero sentinel, both
lambdas are 0 for every league-averages record, the scoreline `"0-0"` carries
joint probability 1 in the score table, and the top entry of the returned
top-five list is `"0-0"` with probability 100.00. -/
theorem c7_all_zero_sentinel (la : LeagueAverages) :
    lambda_home zero_stats zero_stats la = 0 ∧
    lambda_away zero_stats zero_stats la = 0 ∧
    ("0-0", (1 : ℝ)) ∈ score_probabilities (lambda_home zero_stats zero_stats la)
      (lambda_away zero_stats zero_stats la) ∧
    (top_five_scores (lambda_home zero_stats zero_stats la)
      (lambda_away zero_stats zero_stats la)).head? = some ("0-0", 100) := by
  have hH : lambda_home zero_stats zero_stats la = 0 := by
    simp [lambda_home, zero_stats]
  have hA : lambda_away zero_stats zero_stats la = 0 := by
    simp [lambda_away, zero_stats]
  rw [hH, hA]
  exact ⟨rfl, rfl, zero_zero_mem_score_probabilities, top_five_scores_zero_head⟩

/-- C10: if exactly one side's strength record is the all-zero sentinel, both
lambdas vanish (each lambda multiplies one coefficient of each team), and the
prediction collapses to a certain 0-0 draw: draw probability 100, both win
probabilities 0, and top scoreline `"0-0"` with probability 100. -/
theorem c10_one_sided_sentinel (ts : TeamStats) (la : LeagueAverages) :
    (lambda_home zero_stats ts la = 0 ∧ lambda_away zero_stats ts la = 0) ∧
    (lambda_home ts zero_stats la = 0 ∧ lambda_away ts zero_stats la = 0) ∧
    norm_draw_prob 0 0 = 1 ∧
    draw_probability 0 0 = 100 ∧
    home_team_win_probability 0 0 = 0 ∧
    away_team_win_probability 0 0 = 0 ∧
    (top_five_scores 0 0).head? = some ("0-0", 100) := by
  refine ⟨⟨?_, ?_⟩, ⟨?_, ?_⟩, norm_draw_prob_zero_zero, draw_probability_zero_zero,
    home_team_win_probability_zero_zero, away_team_win_probability_zero_zero,
    top_five_scores_zero_head⟩ <;>
    simp [lambda_home, lambda_away, zero_stats]

/-- Mass a side places on strictly more than `t` goals (within the grid);
analysis device for the monotonicity property. -/
noncomputable def tail_mass (t : ℕ) (mu : ℝ) : ℝ :=
  ∑ h in Finset.range (max_goals + 1), if t < h then poisson_pmf mu h else 0

/-- Mass a side places on at most `t` goals (within the grid). -/
noncomputable def head_mass (t : ℕ) (mu : ℝ) : ℝ :=
  ∑ h in Finset.range (max_goals + 1), if h ≤ t then poisson_pmf mu h else 0

lemma head_add_tail (t : ℕ) (mu : ℝ) :
    head_mass t mu + tail_mass t mu = goal_mass mu := by
  unfold head_mass tail_mass goal_mass
  rw [← Finset.sum_add_distrib]
  refine Finset.sum_congr rfl fun h _ => ?_
  rcases le_or_lt h t with hle | hlt
  · rw [if_pos hle, if_neg (by omega)]; ring
  · rw [if_neg (by omega), if_pos hlt]; ring

lemma pow_cross {l l' : ℝ} (h0 : 0 ≤ l) (hll : l ≤ l') {j h : ℕ} (hjh : j ≤ h) :
    l ^ h * l' ^ j ≤ l' ^ h * l ^ j := by
  have h0' : 0 ≤ l' := h0.trans hll
  obtain ⟨d, rfl⟩ := Nat.exists_eq_add_of_le hjh
  rw [pow_add, pow_add]
  have key : l ^ d ≤ l' ^ d := pow_le_pow_left₀ h0 hll d
  have hjj : 0 ≤ l ^ j * l' ^ j := by positivity
  nlinarith [mul_le_mul_of_nonneg_left key hjj]

lemma pmf_cross {l l' : ℝ} (h0 : 0 ≤ l) (hll : l ≤ l') {j h : ℕ} (hjh : j ≤ h) :
    poisson_pmf l h * poisson_pmf l' j ≤ poisson_pmf l' h * poisson_pmf l j := by
  unfold poisson_pmf
  have hp := pow_cross h0 hll hjh
  have hE : (0:ℝ) < Real.exp (-l) * Real.exp (-l') := by positivity
  have hden : (0:ℝ) < (Nat.factorial h : ℝ) * (Nat.factorial j : ℝ) := by positivity
  rw [div_mul_div_comm, div_mul_div_comm, div_le_div_iff₀ hden hden]
  nlinarith [mul_le_mul_of_nonneg_left hp hE.le, mul_le_mul_of_nonneg_right
    (mul_le_mul_of_nonneg_left hp hE.le) hden.le]

lemma tail_head_cross (t : ℕ) {l l' : ℝ} (h0 : 0 ≤ l) (hll : l ≤ l') :
    tail_mass t l * head_mass t l' ≤ tail_mass t l' * head_mass t l := by
  unfold tail_mass head_mass
  rw [Finset.sum_mul_sum, Finset.sum_mul_sum]
  refine Finset.sum_le_sum fun h _ => Finset.sum_le_sum fun j _ => ?_
  by_cases hth : t < h
  · by_cases hjt : j ≤ t
    · rw [if_pos hth, if_pos hjt, if_pos hth, if_pos hjt]
      exact pmf_cross h0 hll (hjt.trans hth.le)
    · simp [if_neg hjt]
  · simp [if_neg hth]

lemma tail_goal_cross (t : ℕ) {l l' : ℝ} (h0 : 0 ≤ l) (hll : l ≤ l') :
    tail_mass t l * goal_mass l' ≤ tail_mass t l' * goal_mass l := by
  rw [← head_add_tail t l', ← head_add_tail t l, mul_add, mul_add]
  have h1 := tail_head_cross t h0 hll
  have h2 : tail_mass t l * tail_mass t l' = tail_mass t l' * tail_mass t l :=
    mul_comm _ _
  linarith

lemma home_win_prob_eq_sum_tail (lh la : ℝ) :
    home_win_prob lh la =
      ∑ a in Finset.range (max_goals + 1), poisson_pmf la a * tail_mass a lh := by
  unfold home_win_prob tail_mass
  rw [Finset.sum_comm]
  refine Finset.sum_congr rfl fun a _ => ?_
  rw [Finset.mul_sum]
  refine Finset.sum_congr rfl fun h _ => ?_
  by_cases hah : a < h
  · rw [if_pos hah, if_pos hah, mul_comm]
  · rw [if_neg hah, if_neg hah, mul_zero]

lemma home_win_cross {l l' la : ℝ} (h0 : 0 ≤ l) (hll : l ≤ l') (ha : 0 ≤ la) :
    home_win_prob l la * total_calculated_prob l' la ≤
      home_win_prob l' la * total_calculated_prob l la := by
  rw [home_win_prob_eq_sum_tail, home_win_prob_eq_sum_tail,
    total_eq_mass_mul, total_eq_mass_mul, Finset.sum_mul, Finset.sum_mul]
  refine Finset.sum_le_sum fun a _ => ?_
  have hcross := tail_goal_cross a h0 hll
  have hpm : 0 ≤ poisson_pmf la a := poisson_pmf_nonneg ha a
  have hgm : 0 ≤ goal_mass la := (goal_mass_pos ha).le
  nlinarith [mul_le_mul_of_nonneg_left hcross (mul_nonneg hpm hgm)]

lemma norm_home_mono {l l' la : ℝ} (h0 : 0 ≤ l) (hll : l ≤ l') (ha : 0 ≤ la) :
    norm_home_win_prob l la ≤ norm_home_win_prob l' la := by
  have ht : 0 < total_calculated_prob l la := total_pos h0 ha
  have ht' : 0 < total_calculated_prob l' la := total_pos (h0.trans hll) ha
  unfold norm_home_win_prob
  rw [if_pos ht, if_pos ht', div_le_div_iff₀ ht ht']
  exact home_win_cross h0 hll ha

lemma round2_mono {x y : ℝ} (hxy : x ≤ y) : round2 x ≤ round2 y := by
  unfold round2
  have h1 : round (x * 100) ≤ round (y * 100) := by
    rw [round_eq, round_eq]
    exact Int.floor_mono (by linarith)
  have h2 : ((round (x * 100) : ℤ) : ℝ) ≤ ((round (y * 100) : ℤ) : ℝ) :=
    Int.cast_le.mpr h1
  linarith

lemma home_field_mono {l l' la : ℝ} (h0 : 0 ≤ l) (hll : l ≤ l') (ha : 0 ≤ la) :
    home_team_win_probability l la ≤ home_team_win_probability l' la :=
  round2_mono
    (mul_le_mul_of_nonneg_right (norm_home_mono h0 hll ha) (by norm_num))

/-- C5 counterexample: with the away side's `defense_strength_away = 0`,
raising the home side's `attack_strength_home` from 1 to 2 leaves
`lambda_home` at 0, so it does not strictly increase. -/
theorem c5_monotonicity_counterexample :
    (⟨1, 1, 1, 1⟩ : TeamStats).attack_strength_home <
      (⟨2, 1, 1, 1⟩ : TeamStats).attack_strength_home ∧
    ¬ lambda_home ⟨1, 1, 1, 1⟩ ⟨1, 1, 1, 0⟩ ⟨1.5, 1.2⟩ <
        lambda_home ⟨2, 1, 1, 1⟩ ⟨1, 1, 1, 0⟩ ⟨1.5, 1.2⟩ := by
  constructor
  · norm_num
  · norm_num [lambda_home]

/-- C5 (amended): on the declared non-negative domain, and provided the away
side's `defense_strength_away` and the league's `avg_home_goals` are strictly
positive, increasing `homeStrength.attack_strength_home` strictly increases
`lambda_home`, leaves `lambda_away` unchanged, and the returned
`home_team_win_probability` is non-decreasing. -/
theorem c5_monotonicity_amended (hs aw : TeamStats) (la : LeagueAverages)
    (x x' : ℝ) (hx0 : 0 ≤ x) (hxx : x < x')
    (hda : 0 < aw.defense_strength_away) (havg : 0 < la.avg_home_goals)
    (haa : 0 ≤ aw.attack_strength_away) (hdh : 0 ≤ hs.defense_strength_home)
    (havga : 0 ≤ la.avg_away_goals) :
    lambda_home { hs with attack_strength_home := x } aw la <
      lambda_home { hs with attack_strength_home := x' } aw la ∧
    lambda_away { hs with attack_strength_home := x } aw la =
      lambda_away { hs with attack_strength_home := x' } aw la ∧
    home_team_win_probability
        (lambda_home { hs with attack_strength_home := x } aw la)
        (lambda_away { hs with attack_strength_home := x } aw la) ≤
      home_team_win_probability
        (lambda_home { hs with attack_strength_home := x' } aw la)
        (lambda_away { hs with attack_strength_home := x' } aw la) := by
  have hc : 0 < aw.defense_strength_away * la.avg_home_goals := mul_pos hda havg
  have hlt : lambda_home { hs with attack_strength_home := x } aw la <
      lambda_home { hs with attack_strength_home := x' } aw la := by
    simp only [lambda_home]
    nlinarith [mul_lt_mul_of_pos_right hxx hc]
  have heq : lambda_away { hs with attack_strength_home := x } aw la =
      lambda_away { hs with attack_strength_home := x' } aw la := rfl
  refine ⟨hlt, heq, ?_⟩
  rw [heq]
  have h0 : 0 ≤ lambda_home { hs with attack_strength_home := x } aw la := by
    simp only [lambda_home]
    positivity
  have ha : 0 ≤ lambda_away { hs with attack_strength_home := x' } aw la := by
    simp only [lambda_away]
    positivity
  exact home_field_mono h0 hlt.le ha

/-- Witness for C5 (amended) at all-ones strength records, unit league
averages, and `attack_strength_home` raised from 0 to 1. -/
theorem c5_monotonicity_amended_witness :
    ((0:ℝ) ≤ 0 ∧ (0:ℝ) < 1 ∧
      0 < (⟨1, 1, 1, 1⟩ : TeamStats).defense_strength_away ∧
      0 < (⟨1, 1⟩ : LeagueAverages).avg_home_goals ∧
      0 ≤ (⟨1, 1, 1, 1⟩ : TeamStats).attack_strength_away ∧
      0 ≤ (⟨1, 1, 1, 1⟩ : TeamStats).defense_strength_home ∧
      0 ≤ (⟨1, 1⟩ : LeagueAverages).avg_away_goals) ∧
    (lambda_home { (⟨1, 1, 1, 1⟩ : TeamStats) with attack_strength_home := (0:ℝ) }
        ⟨1, 1, 1, 1⟩ ⟨1, 1⟩ <
      lambda_home { (⟨1, 1, 1, 1⟩ : TeamStats) with attack_strength_home := (1:ℝ) }
        ⟨1, 1, 1, 1⟩ ⟨1, 1⟩ ∧
    lambda_away { (⟨1, 1, 1, 1⟩ : TeamStats) with attack_strength_home := (0:ℝ) }
        ⟨1, 1, 1, 1⟩ ⟨1, 1⟩ =
      lambda_away { (⟨1, 1, 1, 1⟩ : TeamStats) with attack_strength_home := (1:ℝ) }
        ⟨1, 1, 1, 1⟩ ⟨1, 1⟩ ∧
    home_team_win_probability
        (lambda_home { (⟨1, 1, 1, 1⟩ : TeamStats) with attack_strength_home := (0:ℝ) }
          ⟨1, 1, 1, 1⟩ ⟨1, 1⟩)
        (lambda_away { (⟨1, 1, 1, 1⟩ : TeamStats) with attack_strength_home := (0:ℝ) }
          ⟨1, 1, 1, 1⟩ ⟨1, 1⟩) ≤
      home_team_win_probability
        (lambda_home { (⟨1, 1, 1, 1⟩ : TeamStats) with attack_strength_home := (1:ℝ) }
          ⟨1, 1, 1, 1⟩ ⟨1, 1⟩)
        (lambda_away { (⟨1, 1, 1, 1⟩ : TeamStats) with attack_strength_home := (1:ℝ) }
          ⟨1, 1, 1, 1⟩ ⟨1, 1⟩)) :=
  ⟨⟨le_refl 0, by norm_num, by norm_num, by norm_num, by norm_num, by norm_num,
      by norm_num⟩,
    c5_monotonicity_amended ⟨1, 1, 1, 1⟩ ⟨1, 1, 1, 1⟩ ⟨1, 1⟩ 0 1 (le_refl 0)
      (by norm_num) (by norm_num) (by norm_num) (by norm_num) (by norm_num)
      (by norm_num)⟩

/-- Transposing a strength record exchanges its home-role and away-role
coefficients. -/
def transpose_stats (t : TeamStats) : TeamStats :=
  ⟨t.attack_strength_away, t.defense_strength_away,
    t.attack_strength_home, t.defense_strength_home⟩

/-- Swapping the two league-average fields. -/
def swap_averages (la : LeagueAverages) : LeagueAverages :=
  ⟨la.avg_away_goals, la.avg_home_goals⟩

lemma home_win_prob_swap (l1 l2 : ℝ) : home_win_prob l2 l1 = away_win_prob l1 l2 := by
  unfold home_win_prob away_win_prob
  rw [Finset.sum_comm]
  refine Finset.sum_congr rfl fun i _ => Finset.sum_congr rfl fun j _ => ?_
  by_cases hij : i < j
  · rw [if_pos hij, if_pos hij, mul_comm]
  · rw [if_neg hij, if_neg hij]

lemma draw_prob_swap (l1 l2 : ℝ) : draw_prob l2 l1 = draw_prob l1 l2 := by
  unfold draw_prob
  rw [Finset.sum_comm]
  refine Finset.sum_congr rfl fun i _ => Finset.sum_congr rfl fun j _ => ?_
  rcases eq_or_ne i j with rfl | hne
  · simp [mul_comm]
  · rw [if_neg (Ne.symm hne), if_neg hne]

lemma total_calculated_prob_swap (l1 l2 : ℝ) :
    total_calculated_prob l2 l1 = total_calculated_prob l1 l2 := by
  rw [total_eq_mass_mul, total_eq_mass_mul, mul_comm]

lemma norm_home_win_prob_swap (l1 l2 : ℝ) :
    norm_home_win_prob l2 l1 = norm_away_win_prob l1 l2 := by
  unfold norm_home_win_prob norm_away_win_prob
  rw [total_calculated_prob_swap l1 l2, home_win_prob_swap l1 l2]

lemma norm_away_win_prob_swap (l1 l2 : ℝ) :
    norm_away_win_prob l2 l1 = norm_home_win_prob l1 l2 := by
  unfold norm_home_win_prob norm_away_win_prob
  rw [total_calculated_prob_swap l1 l2, ← home_win_prob_swap l2 l1]

lemma norm_draw_prob_swap (l1 l2 : ℝ) :
    norm_draw_prob l2 l1 = norm_draw_prob l1 l2 := by
  unfold norm_draw_prob
  rw [total_calculated_prob_swap l1 l2, draw_prob_swap l1 l2]

/-- C4 (amended): swapping the two sides swaps the win probabilities only
when each strength record is also transposed (its home-role and away-role
coefficients exchanged), because each lambda mixes the home record's
home-role coefficients with the away record's away-role coefficients.  Under
that record transposition plus the league-average swap, the two lambdas
swap, `home_team_win_probability` and `away_team_win_probability` swap, and
`draw_probability` is unchanged. -/
theorem c4_symmetry_amended (hs aw : TeamStats) (la : LeagueAverages) :
    lambda_home (transpose_stats aw) (transpose_stats hs) (swap_averages la) =
      lambda_away hs aw la ∧
    lambda_away (transpose_stats aw) (transpose_stats hs) (swap_averages la) =
      lambda_home hs aw la ∧
    home_team_win_probability
        (lambda_home (transpose_stats aw) (transpose_stats hs) (swap_averages la))
        (lambda_away (transpose_stats aw) (transpose_stats hs) (swap_averages la)) =
      away_team_win_probability (lambda_home hs aw la) (lambda_away hs aw la) ∧
    away_team_win_probability
        (lambda_home (transpose_stats aw) (transpose_stats hs) (swap_averages la))
        (lambda_away (transpose_stats aw) (transpose_stats hs) (swap_averages la)) =
      home_team_win_probability (lambda_home hs aw la) (lambda_away hs aw la) ∧
    draw_probability
        (lambda_home (transpose_stats aw) (transpose_stats hs) (swap_averages la))
        (lambda_away (transpose_stats aw) (transpose_stats hs) (swap_averages la)) =
      draw_probability (lambda_home hs aw la) (lambda_away hs aw la) := by
  have e1 : lambda_home (transpose_stats aw) (transpose_stats hs) (swap_averages la) =
      lambda_away hs aw la := rfl
  have e2 : lambda_away (transpose_stats aw) (transpose_stats hs) (swap_averages la) =
      lambda_home hs aw la := rfl
  rw [e1, e2]
  refine ⟨rfl, rfl, ?_, ?_, ?_⟩
  · unfold home_team_win_probability away_team_win_probability
    rw [norm_home_win_prob_swap]
  · unfold home_team_win_probability away_team_win_probability
    rw [norm_away_win_prob_swap]
  · unfold draw_probability
    rw [norm_draw_prob_swap]

lemma goal_mass_one : goal_mass 1 = Real.exp (-1) * (685 / 252) := by
  simp only [goal_mass, max_goals, poisson_pmf, Finset.sum_range_succ,
    Finset.sum_range_zero, one_pow, zero_add,
    show Nat.factorial 0 = 1 from rfl, show Nat.factorial 1 = 1 from rfl,
    show Nat.factorial 2 = 2 from rfl, show Nat.factorial 3 = 6 from rfl,
    show Nat.factorial 4 = 24 from rfl, show Nat.factorial 5 = 120 from rfl,
    show Nat.factorial 6 = 720 from rfl, show Nat.factorial 7 = 5040 from rfl]
  push_cast
  ring

lemma home_win_prob_one_zero : home_win_prob 1 0 = Real.exp (-1) * (433 / 252) := by
  simp only [home_win_prob, max_goals, Finset.sum_range_succ, Finset.sum_range_zero,
    poisson_pmf, one_pow, zero_add, neg_zero, Real.exp_zero,
    show Nat.factorial 0 = 1 from rfl, show Nat.factorial 1 = 1 from rfl,
    show Nat.factorial 2 = 2 from rfl, show Nat.factorial 3 = 6 from rfl,
    show Nat.factorial 4 = 24 from rfl, show Nat.factorial 5 = 120 from rfl,
    show Nat.factorial 6 = 720 from rfl, show Nat.factorial 7 = 5040 from rfl]
  norm_num
  ring

lemma home_field_one_zero : home_team_win_probability 1 0 = 6321 / 100 := by
  have htot : total_calculated_prob 1 0 = Real.exp (-1) * (685 / 252) := by
    rw [total_eq_mass_mul, goal_mass_zero, mul_one, goal_mass_one]
  have hpos : 0 < total_calculated_prob 1 0 := by
    rw [htot]; positivity
  have hnorm : norm_home_win_prob 1 0 = 433 / 685 := by
    unfold norm_home_win_prob
    rw [if_pos hpos, home_win_prob_one_zero, htot,
      mul_div_mul_left _ _ (Real.exp_ne_zero _)]
    norm_num
  unfold home_team_win_probability round2
  rw [hnorm]
  have h : ((433 / 685 : ℝ) * 100 * 100 + 1 / 2) = 8660685 / 1370 := by norm_num
  have hr : round ((433 / 685 : ℝ) * 100 * 100) = 6321 := by
    rw [round_eq, h, Int.floor_eq_iff]
    constructor <;> norm_num
  rw [hr]
  norm_num

/-- C4 counterexample: home record `(0,1,0,1)`, away record `(1,1,0,1)`,
league averages `(1,1)`.  The original prediction is a certain 0-0 draw
(`away_team_win_probability = 0`), but after swapping the two records and the
two league-average fields the home side's lambda becomes 1 and the swapped
call's `home_team_win_probability` is 63.21, not 0 — so plain swapping does
not exchange the two win probabilities. -/
theorem c4_symmetry_counterexample :
    ¬ home_team_win_probability
        (lambda_home ⟨1, 1, 0, 1⟩ ⟨0, 1, 0, 1⟩ (swap_averages ⟨1, 1⟩))
        (lambda_away ⟨1, 1, 0, 1⟩ ⟨0, 1, 0, 1⟩ (swap_averages ⟨1, 1⟩)) =
      away_team_win_probability
        (lambda_home ⟨0, 1, 0, 1⟩ ⟨1, 1, 0, 1⟩ ⟨1, 1⟩)
        (lambda_away ⟨0, 1, 0, 1⟩ ⟨1, 1, 0, 1⟩ ⟨1, 1⟩) := by
  have e1 : lambda_home (⟨1, 1, 0, 1⟩ : TeamStats) ⟨0, 1, 0, 1⟩
      (swap_averages ⟨1, 1⟩) = 1 := by
    norm_num [lambda_home, swap_averages]
  have e2 : lambda_away (⟨1, 1, 0, 1⟩ : TeamStats) ⟨0, 1, 0, 1⟩
      (swap_averages ⟨1, 1⟩) = 0 := by
    norm_num [lambda_away, swap_averages]
  have e3 : lambda_home (⟨0, 1, 0, 1⟩ : TeamStats) ⟨1, 1, 0, 1⟩ ⟨1, 1⟩ = 0 := by
    norm_num [lambda_home]
  have e4 : lambda_away (⟨0, 1, 0, 1⟩ : TeamStats) ⟨1, 1, 0, 1⟩ ⟨1, 1⟩ = 0 := by
    norm_num [lambda_away]
  rw [e1, e2, e3, e4, home_field_one_zero, away_team_win_probability_zero_zero]
  norm_num

/-- The season-fallback orchestration of `predict_match` (source lines
39-61), parametric in the collaborators: `retrieve` models
`retrieve_matches_for_team` (a `none`/falsy result combined with `or []`
becomes `(retrieve s).getD []`) and `calc_avg` models
`calculate_league_averages`.  The result is either the structured error
record or the season, match list and league averages the prediction
continues with. -/
noncomputable def season_fallback {M : Type} (retrieve : ℤ → Option (List M))
    (calc_avg : List M → LeagueAverages) (current_season : ℤ) :
    Except String (ℤ × List M × LeagueAverages) :=
  let all_matches := (retrieve current_season).getD []
  let league_averages := calc_avg all_matches
  if league_averages.avg_home_goals = 0 ∧ league_averages.avg_away_goals = 0 then
    let previous_season := current_season - 1
    let prev_matches := (retrieve previous_season).getD []
    if prev_matches.isEmpty then
      Except.error ("No match data found for the league in season " ++
        toString current_season ++ " or " ++ toString previous_season ++
        " to calculate averages.")
    else
      Except.ok (previous_season, prev_matches, calc_avg prev_matches)
  else if all_matches.isEmpty then
    Except.error ("No match data found for the league in season " ++
      toString current_season ++ " to calculate averages.")
  else
    Except.ok (current_season, all_matches, league_averages)

/-- C9: when the current season's league averages are both zero, the caller
retries with `season - 1`; if the previous season has no matches either, the
structured error naming both seasons is returned and no prediction is
produced, and otherwise the prediction proceeds on the previous season's
data. -/
theorem c9_season_fallback_error {M : Type} (retrieve : ℤ → Option (List M))
    (calc_avg : List M → LeagueAverages) (s : ℤ)
    (h0 : (calc_avg ((retrieve s).getD [])).avg_home_goals = 0)
    (h1 : (calc_avg ((retrieve s).getD [])).avg_away_goals = 0) :
    ((retrieve (s - 1)).getD [] = [] →
      season_fallback retrieve calc_avg s =
        Except.error ("No match data found for the league in season " ++
          toString s ++ " or " ++ toString (s - 1) ++ " to calculate averages.")) ∧
    ((retrieve (s - 1)).getD [] ≠ [] →
      season_fallback retrieve calc_avg s =
        Except.ok (s - 1, (retrieve (s - 1)).getD [],
          calc_avg ((retrieve (s - 1)).getD []))) := by
  unfold season_fallback
  rw [if_pos ⟨h0, h1⟩]
  constructor
  · intro hprev
    simp only [hprev, List.isEmpty_nil, if_true]
  · intro hprev
    simp only [List.isEmpty_iff, hprev, if_false]

/-- A degenerate league-averages collaborator: both averages zero. -/
noncomputable def zero_avg : List ℕ → LeagueAverages := fun _ => ⟨0, 0⟩

/-- A retrieval collaborator with no data for any season. -/
def no_data_retrieve : ℤ → Option (List ℕ) := fun _ => none

/-- A retrieval collaborator with data only for season 2024. -/
def prev_data_retrieve : ℤ → Option (List ℕ) := fun s =>
  if s = 2024 then some [7] else none

/-- Witness for C9: with both averages zero and no data in either season the
call from season 2025 yields the error naming seasons 2025 and 2024; with
data present in season 2024 the call falls back to season 2024's matches. -/
theorem c9_season_fallback_error_witness :
    ((zero_avg ((no_data_retrieve 2025).getD [])).avg_home_goals = 0 ∧
      (zero_avg ((no_data_retrieve 2025).getD [])).avg_away_goals = 0 ∧
      (no_data_retrieve (2025 - 1)).getD [] = [] ∧
      season_fallback no_data_retrieve zero_avg 2025 =
        Except.error
          "No match data found for the league in season 2025 or 2024 to calculate averages.") ∧
    ((zero_avg ((prev_data_retrieve 2025).getD [])).avg_home_goals = 0 ∧
      (zero_avg ((prev_data_retrieve 2025).getD [])).avg_away_goals = 0 ∧
      (prev_data_retrieve (2025 - 1)).getD [] ≠ [] ∧
      season_fallback prev_data_retrieve zero_avg 2025 =
        Except.ok (2024, [7], zero_avg [7])) := by
  have h2 : (2025 : ℤ) - 1 = 2024 := by norm_num
  refine ⟨⟨rfl, rfl, rfl, ?_⟩, ⟨rfl, rfl, by decide, ?_⟩⟩
  · have h := (c9_season_fallback_error no_data_retrieve zero_avg 2025 rfl rfl).1 rfl
    rw [h2] at h
    exact h
  · have h := (c9_season_fallback_error prev_data_retrieve zero_avg 2025 rfl rfl).2
      (by decide)
    rw [h2] at h
    convert h using 2

/-- C1: the expected-goal rates follow exactly the two stated product
formulas, and on the concrete strength records and league averages of the
spec's scenario they evaluate to `lambda_home = 1.62`, `lambda_away = 0.96`. -/
theorem c1_expected_goals_formula :
    (∀ (hs aw : TeamStats) (la : LeagueAverages),
      lambda_home hs aw la =
        hs.attack_strength_home * aw.defense_strength_away * la.avg_home_goals ∧
      lambda_away hs aw la =
        aw.attack_strength_away * hs.defense_strength_home * la.avg_away_goals) ∧
    lambda_home ⟨1.2, 1.0, 1.0, 1.0⟩ ⟨1.0, 1.0, 0.8, 0.9⟩ ⟨1.5, 1.2⟩ = 1.62 ∧
    lambda_away ⟨1.2, 1.0, 1.0, 1.0⟩ ⟨1.0, 1.0, 0.8, 0.9⟩ ⟨1.5, 1.2⟩ = 0.96 := by
  refine ⟨fun hs aw la => ⟨rfl, rfl⟩, ?_, ?_⟩ <;> norm_num [lambda_home, lambda_away]

/-- C8: the season resolver returns the previous calendar year for months
January through July and the current calendar year for months August through
December (day-of-month plays no role, so in particular July 31 of year Y
yields Y-1 and August 1 of year Y yields Y). -/
theorem c8_season_boundary (y : ℤ) (m : ℕ) :
    (1 ≤ m → m ≤ 7 → get_current_season y m = y - 1) ∧
    (8 ≤ m → m ≤ 12 → get_current_season y m = y) := by
  unfold get_current_season
  constructor
  · intro h1 h2
    rw [if_pos (by omega)]
  · intro h1 h2
    rw [if_neg (by omega)]

/-- Witness for C8 at the boundary: July (month 7) of 2025 resolves to 2024,
August (month 8) of 2025 resolves to 2025. -/
theorem c8_season_boundary_witness :
    ((1 : ℕ) ≤ 7 ∧ (7 : ℕ) ≤ 7 ∧ get_current_season 2025 7 = 2024) ∧
    ((8 : ℕ) ≤ 8 ∧ (8 : ℕ) ≤ 12 ∧ get_current_season 2025 8 = 2025) := by
  refine ⟨⟨by norm_num, by norm_num, ?_⟩, ⟨by norm_num, by norm_num, ?_⟩⟩
  · have h := (c8_season_boundary 2025 7).1 (by norm_num) (by norm_num)
    rw [h]; norm_num
  · exact (c8_season_boundary 2025 8).2 (by norm_num) (by norm_num)
